import Mathlib

/-!
Verification development for an NTAG 424 DNA tool (`ntag424_read.c`).

Shallow embedding conventions:
* Byte buffers are `List Nat`; byte containers truncate with `&&& 0xFF`
  exactly where the C source casts to `uint8_t`.
* The external AES-128 primitives (CommonCrypto `CCCrypt`) are abstract
  parameters: `E` is the block-encrypt function and `Dc` the block-decrypt
  function, each mapping `(key, 16-byte block)` to a 16-byte block.
* The PC/SC transport is modelled by a `World`: a script of pending card
  responses (`none` models a transport-level failure of `SCardTransmit`)
  plus the transcript of APDUs sent so far.
-/

namespace Ntag424

/-- 16-byte AES state of all zero bytes, and general zero runs. -/
def zeros (n : Nat) : List Nat := List.replicate n 0

/-- C `xor_block` on equal-length byte buffers. -/
def xor_block (a b : List Nat) : List Nat := List.zipWith Nat.xor a b

/-- C `left_shift_1bit`: shift a 16-byte big-endian block left one bit.
The C loop runs `i = 15 .. 0`, carrying each byte's top bit into the
byte to its left; a right fold reproduces that carry chain. -/
def left_shift_1bit (l : List Nat) : List Nat :=
  (l.foldr
    (fun b acc =>
      ((if b &&& 0x80 ≠ 0 then 1 else 0), (((b <<< 1) ||| acc.1) &&& 0xFF) :: acc.2))
    (0, [])).2

/-- XOR a constant into the final byte of a buffer (C `k1[15] ^= 0x87`). -/
def xor_last (l : List Nat) (v : Nat) : List Nat :=
  match l with
  | [] => []
  | _ => l.dropLast ++ [Nat.xor (l.getLastD 0) v]

/-- C `generate_cmac_subkeys`: K1, K2 from `L = AES-ECB(key, 0^16)`. -/
def generate_cmac_subkeys (E : List Nat → List Nat → List Nat) (key : List Nat) :
    List Nat × List Nat :=
  let L := E key (zeros 16)
  let k1s := left_shift_1bit L
  let k1 := if L.headD 0 &&& 0x80 ≠ 0 then xor_last k1s 0x87 else k1s
  let k2s := left_shift_1bit k1
  let k2 := if k1.headD 0 &&& 0x80 ≠ 0 then xor_last k2s 0x87 else k2s
  (k1, k2)

/-- C `aes_cmac`: CMAC over an abstract AES block function `E`. -/
def aes_cmac (E : List Nat → List Nat → List Nat) (key msg : List Nat) : List Nat :=
  let ks := generate_cmac_subkeys E key
  let n0 := (msg.length + 15) / 16
  let n := if n0 = 0 then 1 else n0
  let last_block :=
    if msg.length ≠ 0 ∧ msg.length % 16 = 0 then
      xor_block ((msg.drop (16 * (n - 1))).take 16) ks.1
    else
      let tail := msg.drop (16 * (n - 1))
      xor_block (tail ++ 0x80 :: zeros (15 - tail.length)) ks.2
  let x := List.foldl
    (fun x i => E key (xor_block x ((msg.drop (16 * i)).take 16)))
    (zeros 16) (List.range (n - 1))
  E key (xor_block x last_block)

/-- C `cmac_truncate_8`: the odd-indexed bytes 1,3,...,15 of a 16-byte tag. -/
def cmac_truncate_8 (t : List Nat) : List Nat :=
  (List.range 8).map (fun i => t.getD (1 + 2 * i) 0)

/-- C `pad_iso9797_m2`: append `0x80` then zero bytes up to a positive
multiple of 16. -/
def pad_iso9797_m2 (l : List Nat) : List Nat :=
  let p0 := 16 - l.length % 16
  let p := if p0 = 0 then 16 else p0
  l ++ 0x80 :: zeros (p - 1)

/-- C `unpad_iso9797_m2`: strip trailing zero bytes, then one `0x80`; if no
`0x80` is found the buffer is returned unchanged. -/
def unpad_iso9797_m2 (l : List Nat) : List Nat :=
  match l.reverse.dropWhile (fun b => b == 0) with
  | 128 :: rest => rest.reverse
  | _ => l

/-- C `rotate_left_1` on a byte buffer. -/
def rotate_left_1 (l : List Nat) : List Nat :=
  match l with
  | [] => []
  | x :: xs => xs ++ [x]

/-- C `rotate_right_1` on a byte buffer. -/
def rotate_right_1 (l : List Nat) : List Nat :=
  match l with
  | [] => []
  | _ => l.getLastD 0 :: l.dropLast

/-- One shift step of the C `crc32_ieee` inner loop. -/
def crc32_step (crc : Nat) : Nat :=
  if crc &&& 1 ≠ 0 then Nat.xor (crc >>> 1) 0xEDB88320 else crc >>> 1

/-- C `crc32_ieee`: init `0xFFFFFFFF`, reflected polynomial `0xEDB88320`,
no final inversion. -/
def crc32_ieee (data : List Nat) : Nat :=
  List.foldl
    (fun crc b => List.foldl (fun c _ => crc32_step c) (Nat.xor crc b) (List.range 8))
    0xFFFFFFFF data

/-- C `read_u24_le`. -/
def read_u24_le (b0 b1 b2 : Nat) : Nat := b0 ||| (b1 <<< 8) ||| (b2 <<< 16)

/-- C `write_u24_le` as the emitted byte list. -/
def write_u24_le (v : Nat) : List Nat :=
  [v &&& 0xFF, (v >>> 8) &&& 0xFF, (v >>> 16) &&& 0xFF]

/-- C `sw_ok`. -/
def sw_ok (sw : Nat) : Bool := sw == 0x9000 || sw == 0x9100

/-- Block loop of CBC encryption; `fuel` bounds the recursion and every
caller passes the buffer length, which dominates the block count. -/
def cbc_enc_go (E : List Nat → List Nat → List Nat) (key : List Nat) :
    Nat → List Nat → List Nat → List Nat
  | 0, _, _ => []
  | _ + 1, _, [] => []
  | fuel + 1, iv, b :: rest =>
    let c := E key (xor_block iv ((b :: rest).take 16))
    c ++ cbc_enc_go E key fuel c ((b :: rest).drop 16)

/-- CBC-mode encryption over the abstract block cipher `E`
(`aes_cbc_crypt` with `encrypt = 1`); chunked in 16-byte blocks. -/
def cbc_enc_blocks (E : List Nat → List Nat → List Nat) (key iv msg : List Nat) :
    List Nat :=
  cbc_enc_go E key msg.length iv msg

/-- Block loop of CBC decryption; each plaintext block is the block
decryption XOR the previous ciphertext block (the IV for the first). -/
def cbc_dec_go (Dc : List Nat → List Nat → List Nat) (key : List Nat) :
    Nat → List Nat → List Nat → List Nat
  | 0, _, _ => []
  | _ + 1, _, [] => []
  | fuel + 1, iv, b :: rest =>
    xor_block (Dc key ((b :: rest).take 16)) iv ++
      cbc_dec_go Dc key fuel ((b :: rest).take 16) ((b :: rest).drop 16)

/-- CBC-mode decryption over the abstract block decrypt `Dc`. -/
def cbc_dec_blocks (Dc : List Nat → List Nat → List Nat) (key iv ct : List Nat) :
    List Nat :=
  cbc_dec_go Dc key ct.length iv ct

/-- C `aes_cbc_crypt` (encrypt direction): CommonCrypto rejects inputs that
are not a whole number of AES blocks, which the C caller surfaces as a
failed call. -/
def aes_cbc_encrypt (E : List Nat → List Nat → List Nat)
    (key iv msg : List Nat) : Option (List Nat) :=
  if msg.length % 16 = 0 then some (cbc_enc_blocks E key iv msg) else none

/-- C `aes_cbc_crypt` (decrypt direction). -/
def aes_cbc_decrypt (Dc : List Nat → List Nat → List Nat)
    (key iv ct : List Nat) : Option (List Nat) :=
  if ct.length % 16 = 0 then some (cbc_dec_blocks Dc key iv ct) else none

/-- C `ssm_session_t`: the secure-messaging session state. -/
structure ssm_session_t where
  kenc : List Nat
  kmac : List Nat
  ti : List Nat
  cmd_ctr : Nat
  key_no : Nat
  authenticated : Bool
deriving DecidableEq, Repr

/-- C `file_settings_info_t` (`int` flags kept as `Nat` 0/1 as in C). -/
structure file_settings_info_t where
  valid : Nat
  sdm_enabled : Nat
  sdm_read_ctr_enabled : Nat
  file_option : Nat
  sdm_options : Nat
  sdm_meta_read : Nat
  sdm_file_read : Nat
  sdm_ctr_ret : Nat
  ar1 : Nat
  ar2 : Nat
  file_size : Nat
deriving DecidableEq, Repr

/-- C `sdm_ndef_t` (without the redundant `url` scratch string). -/
structure sdm_ndef_t where
  ndef : List Nat
  uid_offset : Nat
  ctr_offset : Nat
  mac_input_offset : Nat
  mac_offset : Nat
deriving DecidableEq, Repr

/-- The PC/SC environment: a script of pending card responses (each a full
byte string including the two status bytes; `none` models a failing
`SCardTransmit`), plus the transcript of APDUs sent so far. -/
structure World where
  script : List (Option (List Nat))
  sent : List (List Nat)
deriving DecidableEq, Repr

/-- C `transmit`: send one APDU, split the reply into body and the 16-bit
status word `resp[n-2] << 8 | resp[n-1]`; replies shorter than 2 bytes are a
protocol error. No retry of any kind happens here. -/
def transmit (w : World) (apdu : List Nat) : Option (List Nat × Nat) × World :=
  match w.script with
  | [] => (none, { script := [], sent := w.sent ++ [apdu] })
  | r :: rest =>
    let w1 : World := { script := rest, sent := w.sent ++ [apdu] }
    match r with
    | none => (none, w1)
    | some bytes =>
      if bytes.length < 2 then (none, w1)
      else
        (some (bytes.take (bytes.length - 2),
               ((bytes.getD (bytes.length - 2) 0) <<< 8) ||| bytes.getD (bytes.length - 1) 0),
         w1)

/-- C `read_binary`: ISO READ BINARY with the single `0x6CXX` Le-retry.
Returns (body on success, the last status word seen if any, world). -/
def read_binary (w : World) (off le : Nat) :
    Option (List Nat) × Option Nat × World :=
  let apdu := [0x00, 0xB0, (off >>> 8) &&& 0xFF, off &&& 0xFF, le]
  match transmit w apdu with
  | (none, w1) => (none, none, w1)
  | (some (body, sw), w1) =>
    if sw &&& 0xFF00 = 0x6C00 then
      let apdu2 := [0x00, 0xB0, (off >>> 8) &&& 0xFF, off &&& 0xFF, sw &&& 0xFF]
      match transmit w1 apdu2 with
      | (none, w2) => (none, none, w2)
      | (some (body2, sw2), w2) =>
        ((if sw_ok sw2 then some body2 else none), some sw2, w2)
    else
      ((if sw_ok sw then some body else none), some sw, w1)

/-- C `ssm_cmd_full`: wrap one application command in EV2 secure messaging,
transmit it, and authenticate/decrypt the response. `cap` is the capacity
of the caller's output buffer (`*out_len` on entry). Returns
(result: plaintext body and SW on success, updated session, world). -/
def ssm_cmd_full (E Dc : List Nat → List Nat → List Nat) (w : World)
    (sess : ssm_session_t) (cmd : Nat) (hdr data : List Nat) (cap : Nat) :
    Option (List Nat × Nat) × ssm_session_t × World :=
  if sess.authenticated = false then (none, sess, w) else
  let ivc_in := [0xA5, 0x5A] ++ sess.ti ++
    [sess.cmd_ctr &&& 0xFF, (sess.cmd_ctr >>> 8) &&& 0xFF] ++ zeros 8
  let ivc := E sess.kenc ivc_in
  match (if data = [] then some [] else
         if (pad_iso9797_m2 data).length > 512 then none
         else aes_cbc_encrypt E sess.kenc ivc (pad_iso9797_m2 data)) with
  | none => (none, sess, w)
  | some enc =>
    let mac_input := cmd :: (sess.cmd_ctr &&& 0xFF) :: ((sess.cmd_ctr >>> 8) &&& 0xFF) ::
      (sess.ti ++ hdr ++ enc)
    let mact := cmac_truncate_8 (aes_cmac E sess.kmac mac_input)
    let data_len := hdr.length + enc.length + 8
    if data_len > 255 then (none, sess, w) else
    let apdu := [0x90, cmd, 0x00, 0x00, data_len] ++ hdr ++ enc ++ mact ++ [0x00]
    match transmit w apdu with
    | (none, w1) => (none, sess, w1)
    | (some (body, sw), w1) =>
      if sw &&& 0xFF00 ≠ 0x9100 then (none, sess, w1) else
      if body.length < 8 then (none, sess, w1) else
      let resp_enc := body.take (body.length - 8)
      let resp_mact := body.drop (body.length - 8)
      let c1 := (sess.cmd_ctr + 1) % 65536
      let ivr_in := [0x5A, 0xA5] ++ sess.ti ++ [c1 &&& 0xFF, (c1 >>> 8) &&& 0xFF] ++ zeros 8
      let ivr := E sess.kenc ivr_in
      let mac_in2 := (sw &&& 0xFF) :: (c1 &&& 0xFF) :: ((c1 >>> 8) &&& 0xFF) ::
        (sess.ti ++ resp_enc)
      let mact2 := cmac_truncate_8 (aes_cmac E sess.kmac mac_in2)
      if resp_mact ≠ mact2 then (none, sess, w1) else
      match (if resp_enc = [] then some [] else
             aes_cbc_decrypt Dc sess.kenc ivr resp_enc) with
      | none => (none, sess, w1)
      | some dec =>
        let out := if resp_enc = [] then [] else unpad_iso9797_m2 dec
        if out.length > cap then (none, sess, w1) else
        (some (out, sw), { sess with cmd_ctr := c1 }, w1)

/-- C `authenticate_ev2_first`: the two-pass EV2-First handshake. `rndA`
models the host nonce drawn from the RNG (or the `NTAG_RNDA` override). -/
def authenticate_ev2_first (E Dc : List Nat → List Nat → List Nat) (w : World)
    (key : List Nat) (key_no : Nat) (rndA : List Nat) :
    Option ssm_session_t × World :=
  let apdu1 := [0x90, 0x71, 0x00, 0x00, 0x02, key_no, 0x00, 0x00]
  match transmit w apdu1 with
  | (none, w1) => (none, w1)
  | (some (body1, sw1), w1) =>
    if sw1 ≠ 0x91AF ∨ body1.length ≠ 16 then (none, w1) else
    match aes_cbc_decrypt Dc key (zeros 16) body1 with
    | none => (none, w1)
    | some rndB =>
      let rndAB := rndA ++ rotate_left_1 rndB
      match aes_cbc_encrypt E key (zeros 16) rndAB with
      | none => (none, w1)
      | some rndAB_enc =>
        let apdu2 := [0x90, 0xAF, 0x00, 0x00, 0x20] ++ rndAB_enc ++ [0x00]
        match transmit w1 apdu2 with
        | (none, w2) => (none, w2)
        | (some (body2, sw2), w2) =>
          if sw2 ≠ 0x9100 ∨ body2.length ≠ 32 then (none, w2) else
          match aes_cbc_decrypt Dc key (zeros 16) body2 with
          | none => (none, w2)
          | some dec =>
            let ti := dec.take 4
            let rndA_rot := (dec.drop 4).take 16
            if rotate_right_1 rndA_rot ≠ rndA then (none, w2) else
            let xor_part := List.zipWith Nat.xor ((rndA.drop 2).take 6) (rndB.take 6)
            let mix := rndA.take 2 ++ xor_part ++ (rndB.drop 6).take 10 ++ (rndA.drop 8).take 8
            let sv1 := [0xA5, 0x5A, 0x00, 0x01, 0x00, 0x80] ++ mix
            let sv2 := [0x5A, 0xA5, 0x00, 0x01, 0x00, 0x80] ++ mix
            (some { kenc := aes_cmac E key sv1, kmac := aes_cmac E key sv2,
                    ti := ti, cmd_ctr := 0, key_no := key_no, authenticated := true },
             w2)

/-- One conditional 3-byte-offset consumption step of C
`parse_file_settings` (the `if (len < idx + k) return 0; idx += k` idiom). -/
def consume (len idx k : Nat) (cond : Bool) : Option Nat :=
  if cond then (if len < idx + k then none else some (idx + k)) else some idx

/-- C `parse_file_settings`: parse a GetFileSettings response. Returns
`none` where C returns 0 (parse error). -/
def parse_file_settings (data : List Nat) : Option file_settings_info_t :=
  if data.length < 7 then none else
  let file_option := data.getD 1 0
  let ar1 := data.getD 2 0
  let ar2 := data.getD 3 0
  let file_size := read_u24_le (data.getD 4 0) (data.getD 5 0) (data.getD 6 0)
  let base : file_settings_info_t :=
    { valid := 1
      sdm_enabled := if file_option &&& 0x40 ≠ 0 then 1 else 0
      sdm_read_ctr_enabled := 0
      file_option := file_option
      sdm_options := 0, sdm_meta_read := 0, sdm_file_read := 0, sdm_ctr_ret := 0
      ar1 := ar1, ar2 := ar2, file_size := file_size }
  if file_option &&& 0x40 = 0 then some base else
  if data.length < 10 then none else
  let sdm_options := data.getD 7 0
  let sdm_ar := (data.getD 8 0) ||| ((data.getD 9 0) <<< 8)
  let sdm_meta := (sdm_ar >>> 12) &&& 0x0F
  let sdm_file := (sdm_ar >>> 8) &&& 0x0F
  let sdm_ctr := sdm_ar &&& 0x0F
  let info : file_settings_info_t :=
    { base with
      sdm_options := sdm_options
      sdm_meta_read := sdm_meta
      sdm_file_read := sdm_file
      sdm_ctr_ret := sdm_ctr
      sdm_read_ctr_enabled := if sdm_options &&& 0x40 ≠ 0 then 1 else 0 }
  (consume data.length 10 3 (sdm_options &&& 0x80 ≠ 0 && sdm_meta == 0x0E)).bind fun i1 =>
  (consume data.length i1 3 (sdm_options &&& 0x40 ≠ 0 && sdm_meta == 0x0E)).bind fun i2 =>
  (consume data.length i2 3 (sdm_meta ≤ 0x04)).bind fun i3 =>
  (consume data.length i3 3 (sdm_file != 0x0F)).bind fun i4 =>
  (consume data.length i4 6 (sdm_file != 0x0F && sdm_options &&& 0x10 ≠ 0)).bind fun i5 =>
  (consume data.length i5 3 (sdm_file != 0x0F)).bind fun i6 =>
  (consume data.length i6 3 (sdm_options &&& 0x20 ≠ 0)).map fun _ => info

/-- The ChangeFileSettings payload built by C `change_file_settings_sdm`
(lines 945-979), before it is handed to `ssm_cmd_full`. -/
def cfs_sdm_payload (comm_mode ar1 ar2 sdm_options sdm_meta sdm_file sdm_ctr
    uid_offset sdm_read_ctr_offset sdm_mac_input_offset sdm_mac_offset : Nat) :
    List Nat :=
  let file_option := (comm_mode &&& 0x03) ||| 0x40
  let sdm_ar := ((sdm_meta &&& 0x0F) <<< 12) ||| ((sdm_file &&& 0x0F) <<< 8) |||
    (0x0F <<< 4) ||| (sdm_ctr &&& 0x0F)
  [file_option, ar1, ar2, sdm_options, sdm_ar &&& 0xFF, (sdm_ar >>> 8) &&& 0xFF] ++
  (if sdm_options &&& 0x80 ≠ 0 ∧ sdm_meta = 0x0E then write_u24_le uid_offset else []) ++
  (if sdm_options &&& 0x40 ≠ 0 ∧ sdm_meta = 0x0E then write_u24_le sdm_read_ctr_offset else []) ++
  (if sdm_file ≠ 0x0F then write_u24_le sdm_mac_input_offset else []) ++
  (if sdm_file ≠ 0x0F then write_u24_le sdm_mac_offset else [])

/-- C `change_file_settings_sdm`: build the SDM payload and send it via
secure messaging with INS `0x5F` and header `FileNo`. -/
def change_file_settings_sdm (E Dc : List Nat → List Nat → List Nat) (w : World)
    (sess : ssm_session_t) (file_no comm_mode ar1 ar2 sdm_options sdm_meta sdm_file
    sdm_ctr uid_offset sdm_read_ctr_offset sdm_mac_input_offset sdm_mac_offset : Nat) :
    Option (List Nat × Nat) × ssm_session_t × World :=
  ssm_cmd_full E Dc w sess 0x5F [file_no]
    (cfs_sdm_payload comm_mode ar1 ar2 sdm_options sdm_meta sdm_file sdm_ctr
      uid_offset sdm_read_ctr_offset sdm_mac_input_offset sdm_mac_offset) 16

/-- C `change_key`: build the 21-byte key cryptogram and send it via
secure messaging with INS `0xC4` and header `key_no`. -/
def change_key (E Dc : List Nat → List Nat → List Nat) (w : World)
    (sess : ssm_session_t) (key_no : Nat) (old_key new_key : List Nat)
    (key_ver : Nat) : Option (List Nat × Nat) × ssm_session_t × World :=
  let crc := crc32_ieee (new_key.take 16)
  let key_data := List.zipWith Nat.xor (new_key.take 16) (old_key.take 16) ++
    [key_ver] ++ [crc &&& 0xFF, (crc >>> 8) &&& 0xFF, (crc >>> 16) &&& 0xFF, (crc >>> 24) &&& 0xFF]
  ssm_cmd_full E Dc w sess 0xC4 [key_no] key_data 16

/-- C `find_substr`: first index where `needle` occurs in `buf`. -/
def find_substr (buf needle : List Nat) : Option Nat :=
  if needle.length = 0 ∨ buf.length < needle.length then none
  else (List.range (buf.length - needle.length + 1)).find?
    (fun i => (buf.drop i).take needle.length == needle)

/-- ASCII bytes of the four URI-prefix strings and their NDEF codes
(C `prefixes` table, in order). -/
def ndef_uri_prefixes : List (List Nat × Nat) :=
  [([104, 116, 116, 112, 115, 58, 47, 47, 119, 119, 119, 46], 0x02),
   ([104, 116, 116, 112, 58, 47, 47, 119, 119, 119, 46], 0x01),
   ([104, 116, 116, 112, 115, 58, 47, 47], 0x04),
   ([104, 116, 116, 112, 58, 47, 47], 0x03)]

/-- ASCII of `"uid="`, `"ctr="` and `"mac="`. -/
def uid_marker : List Nat := [117, 105, 100, 61]

def ctr_marker : List Nat := [99, 116, 114, 61]

def mac_marker : List Nat := [109, 97, 99, 61]

/-- ASCII of `"?uid=" ++ 14*'0' ++ "&ctr=" ++ 6*'0' ++ "&mac=" ++ 16*'0'`,
the query-string suffix C `build_sdm_ndef` appends with `snprintf`. -/
def sdm_query_suffix : List Nat :=
  [63] ++ uid_marker ++ List.replicate 14 48 ++
  [38] ++ ctr_marker ++ List.replicate 6 48 ++
  [38] ++ mac_marker ++ List.replicate 16 48

/-- C `build_sdm_ndef`: emit the NDEF URI record with placeholder spans and
report their absolute offsets. `base_url` is the ASCII byte string of the
base URL argument. -/
def build_sdm_ndef (base_url : List Nat) : Option sdm_ndef_t :=
  let url := base_url ++ sdm_query_suffix
  if url.length ≥ 512 then none else
  let hit := ndef_uri_prefixes.find? (fun pc => pc.1.isPrefixOf url)
  let code := (hit.map (fun pc => pc.2)).getD 0x00
  let uri := (hit.map (fun pc => url.drop pc.1.length)).getD url
  if uri.length > 255 then none else
  let payload_len := 1 + uri.length
  if payload_len > 255 then none else
  let record_len := 4 + payload_len
  let total_len := 2 + record_len
  if total_len > 256 then none else
  let ndef := [(record_len >>> 8) &&& 0xFF, record_len &&& 0xFF,
               0xD1, 0x01, payload_len, 0x55, code] ++ uri
  match find_substr ndef uid_marker, find_substr ndef ctr_marker,
        find_substr ndef mac_marker with
  | some uid_key_pos, some ctr_key_pos, some mac_key_pos =>
    let uid_offset := uid_key_pos + 4
    let ctr_offset := ctr_key_pos + 4
    let mac_offset := mac_key_pos + 4
    if uid_offset + 14 > total_len ∨ ctr_offset + 6 > total_len ∨
       mac_offset + 16 > total_len then none else
    if ((ndef.drop uid_offset).take 14 == List.replicate 14 48) &&
       ((ndef.drop ctr_offset).take 6 == List.replicate 6 48) &&
       ((ndef.drop mac_offset).take 16 == List.replicate 16 48) then
      some { ndef := ndef, uid_offset := uid_offset, ctr_offset := ctr_offset,
             mac_input_offset := uid_key_pos, mac_offset := mac_offset }
    else none
  | _, _, _ => none

/-! ## Specification-side definitions

These render the spec's own formulas, to be compared against the
source-derived definitions above. -/

/-- Modelled from the spec (§6 "CRC32 used by ChangeKey"): one bit of the
reflected CRC division, phrased with `% 2` and `/ 2`. -/
def crc32_spec_step (c : Nat) : Nat :=
  if c % 2 = 1 then Nat.xor (c / 2) 0xEDB88320 else c / 2

/-- Modelled from the spec: reflected CRC32, init `0xFFFFFFFF`, reversed
polynomial `0xEDB88320`, no final inversion. -/
def crc32_spec (data : List Nat) : Nat :=
  List.foldl
    (fun crc b => List.foldl (fun c _ => crc32_spec_step c) (Nat.xor crc b) (List.range 8))
    0xFFFFFFFF data

/-- Modelled from the spec (§4.A): a one-bit left shift of a big-endian
byte block, each byte taking the carry-out of the top bit of the byte to
its right. -/
def left_shift_spec (l : List Nat) : List Nat :=
  (List.range l.length).map
    (fun i => ((l.getD i 0 <<< 1) |||
      (if l.getD (i + 1) 0 &&& 0x80 ≠ 0 then 1 else 0)) &&& 0xFF)

/-- Modelled from the spec (§4.A): derive K1, K2 from `AES-ECB(K, 0^16)` by
a one-bit left shift with XOR of `0x87` into the last byte on carry-out of
the top bit. -/
def generate_cmac_subkeys_spec (E : List Nat → List Nat → List Nat)
    (key : List Nat) : List Nat × List Nat :=
  let L := E key (zeros 16)
  let k1 := if L.getD 0 0 &&& 0x80 ≠ 0 then xor_last (left_shift_spec L) 0x87
            else left_shift_spec L
  let k2 := if k1.getD 0 0 &&& 0x80 ≠ 0 then xor_last (left_shift_spec k1) 0x87
            else left_shift_spec k1
  (k1, k2)

/-- Split a byte string into its 16-byte blocks (the final block may be
shorter; a string of at most 16 bytes is a single block). -/
def chunks16 (l : List Nat) : List (List Nat) :=
  if l.length ≤ 16 then [l]
  else l.take 16 :: chunks16 (l.drop 16)
termination_by l.length
decreasing_by simp [List.length_drop]; omega

/-- Modelled from the spec (§4.A "CMAC(K, M)"): split M into 16-byte
blocks; if M is empty or not a 16-byte multiple, the final block is the
`0x80 00..`-padded remainder XOR K2, otherwise the final full block XOR
K1; CBC-MAC all blocks with a zero IV. -/
def cmac_spec (E : List Nat → List Nat → List Nat) (key msg : List Nat) : List Nat :=
  let ks := generate_cmac_subkeys_spec E key
  let complete := msg.length ≠ 0 ∧ msg.length % 16 = 0
  let blocks := if complete then chunks16 msg else chunks16 (pad_iso9797_m2 msg)
  let sub := if complete then ks.1 else ks.2
  let blocks2 := blocks.dropLast ++ [xor_block (blocks.getLastD (zeros 16)) sub]
  List.foldl (fun x b => E key (xor_block x b)) (zeros 16) blocks2

/-- Modelled from the spec (§4.D step 7): the 26-byte session-vector core
`MIX = RndA[0..2] || (RndA[2..8] XOR RndB[0..6]) || RndB[6..16] || RndA[8..16]`. -/
def ev2_mix_spec (rndA rndB : List Nat) : List Nat :=
  rndA.take 2 ++ List.zipWith Nat.xor ((rndA.drop 2).take 6) (rndB.take 6) ++
  (rndB.drop 6).take 10 ++ (rndA.drop 8).take 8

/-- Modelled from the spec: `SVprefix1 = A5 5A 00 01 00 80`. -/
def sv_prefix1 : List Nat := [0xA5, 0x5A, 0x00, 0x01, 0x00, 0x80]

/-- Modelled from the spec: `SVprefix2 = 5A A5 00 01 00 80`. -/
def sv_prefix2 : List Nat := [0x5A, 0xA5, 0x00, 0x01, 0x00, 0x80]

/-! ## Concrete instances used by witnesses and counterexamples -/

/-- A trivial instantiation of the abstract AES block-encrypt parameter
(the identity on the block); used only to build concrete witness runs. -/
def Etriv : List Nat → List Nat → List Nat := fun _ b => b

/-- A trivial instantiation of the abstract AES block-decrypt parameter. -/
def Dtriv : List Nat → List Nat → List Nat := fun _ b => b

/-- A concrete authenticated session with all-zero keys and TI. -/
def sess0 : ssm_session_t :=
  { kenc := zeros 16, kmac := zeros 16, ti := [0, 0, 0, 0],
    cmd_ctr := 0, key_no := 0, authenticated := true }

/-- A script whose first response carries a wrong response MAC (all zero)
and whose second carries the correct one for `sess0`, command `0xF6`,
header `[2]`, empty data, under `Etriv`. -/
def w_badmac : World :=
  { script := [some [0, 0, 0, 0, 0, 0, 0, 0, 0x91, 0x00],
               some [1, 0, 0, 128, 0, 0, 0, 0, 0x91, 0x00]],
    sent := [] }

/-- A script whose single response has a one-byte encrypted body `[0]` and
a response MAC that is correct for it (so MAC verification succeeds, but
CBC decryption of a 1-byte ciphertext fails). -/
def w_shortbody : World :=
  { script := [some [0, 1, 0, 0, 0, 0, 0, 0, 0, 0x91, 0x00]], sent := [] }

/-- A script carrying a correct response MAC for `sess0`, command `0xF6`,
header `[2]`, empty data, under `Etriv`. -/
def w_goodmac : World :=
  { script := [some [1, 0, 0, 128, 0, 0, 0, 0, 0x91, 0x00]], sent := [] }

/-- A card script driving `authenticate_ev2_first` to success under the
trivial cipher with the all-zero key and all-zero host nonce. -/
def w_auth0 : World :=
  { script := [some (zeros 16 ++ [0x91, 0xAF]), some (zeros 32 ++ [0x91, 0x00])],
    sent := [] }

/-- The world after the first handshake APDU of the `w_auth0` run. -/
def w_auth_mid : World :=
  { script := [some (zeros 32 ++ [0x91, 0x00])],
    sent := [[0x90, 0x71, 0x00, 0x00, 0x02, 0x00, 0x00, 0x00]] }

/-- The world after the `w_auth0` handshake completes. -/
def w_auth_done : World :=
  { script := [],
    sent := [[0x90, 0x71, 0x00, 0x00, 0x02, 0x00, 0x00, 0x00],
             [0x90, 0xAF, 0x00, 0x00, 0x20] ++ zeros 32 ++ [0x00]] }

/-- The session produced by the `w_auth0` handshake. -/
def sess_auth : ssm_session_t :=
  { kenc := [0xA5, 0x5A, 0x00, 0x01, 0x00, 0x80] ++ zeros 10,
    kmac := [0x5A, 0xA5, 0x00, 0x01, 0x00, 0x80] ++ zeros 10,
    ti := [0, 0, 0, 0], cmd_ctr := 0, key_no := 0, authenticated := true }

/-- ASCII bytes of the base URL `"https://example.com/tap"`. -/
def tap_base_url : List Nat :=
  [104, 116, 116, 112, 115, 58, 47, 47, 101, 120, 97, 109, 112, 108, 101,
   46, 99, 111, 109, 47, 116, 97, 112]

/-- A script answering one READ BINARY with `SW = 0x6C10` and the retry
with body `[0xAA]`, `SW = 0x9000`. -/
def w_leretry : World :=
  { script := [some [0x6C, 0x10], some [0xAA, 0x90, 0x00]], sent := [] }

/-! ## Theorems -/

/-- `headD` with default 0 is `getD 0`. -/
theorem headD_eq_getD_zero (l : List Nat) : l.headD 0 = l.getD 0 0 := by
  cases l <;> rfl

/-- The carry accumulated by the `left_shift_1bit` fold is the top bit of
the head byte. -/
theorem left_shift_foldr_fst (l : List Nat) :
    (l.foldr (fun b acc => ((if b &&& 0x80 ≠ 0 then 1 else 0),
      (((b <<< 1) ||| acc.1) &&& 0xFF) :: acc.2)) ((0 : Nat), ([] : List Nat))).1
    = (if l.headD 0 &&& 0x80 ≠ 0 then 1 else 0) := by
  cases l <;> simp [List.headD]

/-- The C carry-chain shift agrees with the index-wise spec shift. -/
theorem left_shift_1bit_eq_spec (l : List Nat) : left_shift_1bit l = left_shift_spec l := by
  induction l with
  | nil => rfl
  | cons b t ih =>
    unfold left_shift_1bit at ih ⊢
    unfold left_shift_spec at ih ⊢
    simp only [List.foldr_cons, List.length_cons, List.range_succ_eq_map, List.map_cons,
      List.map_map, List.getD_cons_zero, List.getD_cons_succ]
    congr 1
    rw [left_shift_foldr_fst, headD_eq_getD_zero]

/-- The C subkey derivation agrees with the spec's. -/
theorem subkeys_eq_spec (E : List Nat → List Nat → List Nat) (key : List Nat) :
    generate_cmac_subkeys E key = generate_cmac_subkeys_spec E key := by
  unfold generate_cmac_subkeys generate_cmac_subkeys_spec
  simp only [left_shift_1bit_eq_spec, headD_eq_getD_zero]

/-- `chunks16` of a whole number of blocks, as a map over block indices. -/
theorem chunks16_eq_map : ∀ (n : Nat) (P : List Nat), P.length = 16 * (n + 1) →
    chunks16 P = (List.range (n + 1)).map (fun i => (P.drop (16 * i)).take 16) := by
  intro n
  induction n with
  | zero =>
    intro P h
    unfold chunks16
    rw [if_pos (by omega)]
    simp only [List.range_succ, List.range_zero, List.nil_append, List.map_cons,
      List.map_nil, Nat.mul_zero, List.drop_zero]
    rw [List.take_of_length_le (by omega)]
  | succ m ih =>
    intro P h
    unfold chunks16
    rw [if_neg (by omega)]
    rw [ih (P.drop 16) (by simp only [List.length_drop]; omega)]
    rw [List.range_succ_eq_map (m + 1)]
    simp only [List.map_cons, List.map_map, Nat.mul_zero, List.drop_zero]
    congr 1
    apply List.map_congr_left
    intro i _
    simp only [Function.comp, List.drop_drop]
    congr 2
    omega

/-- Peeling the final, subkey-XORed block off the spec's CBC-MAC fold. -/
theorem foldl_blocks (E : List Nat → List Nat → List Nat) (key sub : List Nat)
    (g : Nat → List Nat) (m : Nat) :
    List.foldl (fun x b => E key (xor_block x b)) (zeros 16)
      (((List.range (m + 1)).map g).dropLast ++
        [xor_block (((List.range (m + 1)).map g).getLastD (zeros 16)) sub])
    = E key (xor_block
        (List.foldl (fun x b => E key (xor_block x b)) (zeros 16) ((List.range m).map g))
        (xor_block (g m) sub)) := by
  rw [List.range_succ, List.map_append]
  simp only [List.map_cons, List.map_nil]
  rw [List.dropLast_concat, List.getLastD_concat, List.foldl_append]
  rfl

/-- Length of an M2-padded buffer. -/
theorem pad_length_eq (l : List Nat) :
    (pad_iso9797_m2 l).length = l.length + (16 - l.length % 16) := by
  unfold pad_iso9797_m2
  have h : ¬ (16 - l.length % 16 = 0) := by omega
  simp only [h, if_false, List.length_append, List.length_cons, zeros,
    List.length_replicate]
  omega

/-- M2 padding as a plain append. -/
theorem pad_eq_append (l : List Nat) :
    pad_iso9797_m2 l = l ++ 0x80 :: zeros (15 - l.length % 16) := by
  unfold pad_iso9797_m2
  have h : ¬ (16 - l.length % 16 = 0) := by omega
  simp only [h, if_false]
  have h2 : 16 - l.length % 16 - 1 = 15 - l.length % 16 := by omega
  rw [h2]

/-- Shape of `aes_cmac` on a message that is a positive whole number of
blocks. -/
theorem aes_cmac_complete (E : List Nat → List Nat → List Nat) (key msg : List Nat)
    (h0 : msg.length ≠ 0) (h16 : msg.length % 16 = 0) :
    aes_cmac E key msg = E key (xor_block
      (List.foldl (fun x i => E key (xor_block x ((msg.drop (16 * i)).take 16))) (zeros 16)
        (List.range (msg.length / 16 - 1)))
      (xor_block ((msg.drop (16 * (msg.length / 16 - 1))).take 16)
        (generate_cmac_subkeys E key).1)) := by
  simp only [aes_cmac]
  have h1 : (msg.length + 15) / 16 = msg.length / 16 := by omega
  have h2 : ¬ (msg.length / 16 = 0) := by omega
  simp only [h1]
  rw [if_neg h2, if_pos ⟨h0, h16⟩]

/-- One round of the C CRC32 bit loop equals the spec's. -/
theorem crc32_step_eq : crc32_step = crc32_spec_step := by
  funext c
  unfold crc32_step crc32_spec_step
  rw [Nat.and_one_is_mod, Nat.shiftRight_one]
  rcases Nat.mod_two_eq_zero_or_one c with h | h <;> simp [h]

/-- The C `crc32_ieee` computes the spec's reflected CRC32. -/
theorem crc32_ieee_eq_spec (l : List Nat) : crc32_ieee l = crc32_spec l := by
  unfold crc32_ieee crc32_spec
  simp only [crc32_step_eq]

/-- Masking a nibble-sized value with `0x0F` is the identity. -/
theorem and15_self : ∀ m < 16, m &&& 0x0F = m := by decide

/-- The packed SDM access-rights word round-trips through its two
little-endian bytes, and its nibbles recover the three inputs. -/
theorem sdm_ar_nibbles : ∀ m < 16, ∀ f < 16, ∀ c < 16,
    ((((m <<< 12) ||| (f <<< 8) ||| (0x0F <<< 4) ||| c) &&& 0xFF) |||
      (((((m <<< 12) ||| (f <<< 8) ||| (0x0F <<< 4) ||| c) >>> 8) &&& 0xFF) <<< 8)) =
      ((m <<< 12) ||| (f <<< 8) ||| (0x0F <<< 4) ||| c) ∧
    ((((m <<< 12) ||| (f <<< 8) ||| (0x0F <<< 4) ||| c) >>> 12) &&& 0x0F) = m ∧
    ((((m <<< 12) ||| (f <<< 8) ||| (0x0F <<< 4) ||| c) >>> 8) &&& 0x0F) = f ∧
    (((m <<< 12) ||| (f <<< 8) ||| (0x0F <<< 4) ||| c) &&& 0x0F) = c := by decide

/-- A FileOption with the SDM bit forced on never reads as SDM-disabled. -/
theorem fo_and40 : ∀ x < 4, ¬((x ||| 0x40) &&& 0x40 = 0) := by decide

/-- C1 (counterexample): on a response whose MAC is wrong (the correct
truncated response MAC for `sess0` and command `0xF6 [2]` is
`[1,0,0,128,0,0,0,0]`, while the card sent all zeros) the wrap call fails,
but the session is NOT marked not-authenticated, and the very same session
is then used for a further wrapped command which succeeds. -/
theorem C1_counterexample :
    (ssm_cmd_full Etriv Dtriv w_badmac sess0 0xF6 [2] [] 16).1 = none ∧
    (ssm_cmd_full Etriv Dtriv w_badmac sess0 0xF6 [2] [] 16).2.1.authenticated = true ∧
    cmac_truncate_8 (aes_cmac Etriv sess0.kmac ([0x00, 0x01, 0x00] ++ sess0.ti)) ≠
      [0, 0, 0, 0, 0, 0, 0, 0] ∧
    (ssm_cmd_full Etriv Dtriv
      (ssm_cmd_full Etriv Dtriv w_badmac sess0 0xF6 [2] [] 16).2.2
      (ssm_cmd_full Etriv Dtriv w_badmac sess0 0xF6 [2] [] 16).2.1
      0xF6 [2] [] 16).1 = some ([], 0x9100) := by
  decide

/-- C2 (counterexample): the card's one-byte encrypted body `[0]` carries
the response MAC `[1,0,0,0,0,0,0,0]`, which is exactly
`Truncate8(CMAC(KMAC, SW2 || CmdCtr+1 || TI || C))` — so response-MAC
verification succeeds — yet the call fails (the 1-byte ciphertext cannot
be CBC-decrypted) and `CmdCtr` is NOT advanced. -/
theorem C2_counterexample :
    cmac_truncate_8 (aes_cmac Etriv sess0.kmac ([0x00, 0x01, 0x00] ++ sess0.ti ++ [0x00])) =
      [1, 0, 0, 0, 0, 0, 0, 0] ∧
    (ssm_cmd_full Etriv Dtriv w_shortbody sess0 0xF6 [2] [] 16).1 = none ∧
    (ssm_cmd_full Etriv Dtriv w_shortbody sess0 0xF6 [2] [] 16).2.1.cmd_ctr = sess0.cmd_ctr := by
  decide

/-- C4 (counterexample): feeding the ChangeFileSettings payload built by
`change_file_settings_sdm` for `cm=0, AR=00 00, SDMOptions=0xC1,
Meta=0xE, File=1, Ctr=1` straight into `parse_file_settings` does not
yield the same settings: Build emits `FileOption = 0x40` and
`SDMOptions = 0xC1`, but the parser (which expects the GetFileSettings
layout, with a leading FileType byte and a FileSize field) reports
`FileOption = 0`, `SDM disabled`, `SDMOptions = 0`. -/
theorem C4_counterexample :
    ((parse_file_settings (cfs_sdm_payload 0 0 0 0xC1 14 1 1 27 46 23 57)).map
      (fun i => (i.file_option, i.sdm_enabled, i.sdm_options))) = some (0, 0, 0) ∧
    (cfs_sdm_payload 0 0 0 0xC1 14 1 1 27 46 23 57).getD 0 0 = 0x40 ∧
    (0 : Nat) ≠ 0x40 := by
  decide

/-- C5 (counterexample): the byte-level transport adapter `transmit`
itself performs no `0x6CXX` retry: on a scripted `SW = 0x6C10` it returns
that very result to its caller after sending the APDU exactly once,
leaving the scripted second response unconsumed. -/
theorem C5_counterexample :
    (transmit w_leretry [0x00, 0xB0, 0x00, 0x00, 0x00]).1 = some ([], 0x6C10) ∧
    (transmit w_leretry [0x00, 0xB0, 0x00, 0x00, 0x00]).2.sent =
      [[0x00, 0xB0, 0x00, 0x00, 0x00]] ∧
    (transmit w_leretry [0x00, 0xB0, 0x00, 0x00, 0x00]).2.script =
      [some [0xAA, 0x90, 0x00]] := by
  decide

/-- C6 (counterexample): for base URL `"https://example.com/tap"` the
builder emits a buffer beginning `00 47 D1 01 43 55 04 'example.com/tap?uid='`
and reports `mac_offset = 57`, not the record/payload lengths `0x3C`/`0x38`
and `mac_offset = 58` stated in the claim. -/
theorem C6_counterexample :
    ((build_sdm_ndef tap_base_url).map
      (fun s => (s.ndef.take 27, s.uid_offset, s.ctr_offset, s.mac_offset,
                 s.mac_input_offset))) =
      some ([0x00, 0x47, 0xD1, 0x01, 0x43, 0x55, 0x04,
             101, 120, 97, 109, 112, 108, 101, 46, 99, 111, 109, 47, 116, 97, 112,
             63, 117, 105, 100, 61], 27, 46, 57, 23) ∧
    ([(0x00 : Nat), 0x47, 0xD1, 0x01, 0x43, 0x55, 0x04,
      101, 120, 97, 109, 112, 108, 101, 46, 99, 111, 109, 47, 116, 97, 112,
      63, 117, 105, 100, 61] ≠
     [0x00, 0x3C, 0xD1, 0x01, 0x38, 0x55, 0x04,
      101, 120, 97, 109, 112, 108, 101, 46, 99, 111, 109, 47, 116, 97, 112,
      63, 117, 105, 100, 61]) ∧
    (57 : Nat) ≠ 58 := by
  decide

/-- C6 (amended): for base URL `"https://example.com/tap"` the NDEF
builder succeeds; the emitted buffer begins with
`00 47 D1 01 43 55 04 65 78 61 6D 70 6C 65 2E 63 6F 6D 2F 74 61 70 3F 75 69 64 3D`
(URI prefix `https://` compressed to code 0x04), and the returned offsets
are `uid_offset = 27`, `ctr_offset = 46`, `mac_offset = 57`,
`mac_input_offset = 23`. -/
theorem C6_ndef_build :
    ((build_sdm_ndef tap_base_url).map
      (fun s => (s.ndef.take 27, s.uid_offset, s.ctr_offset, s.mac_offset,
                 s.mac_input_offset))) =
      some ([0x00, 0x47, 0xD1, 0x01, 0x43, 0x55, 0x04,
             0x65, 0x78, 0x61, 0x6D, 0x70, 0x6C, 0x65, 0x2E, 0x63, 0x6F, 0x6D,
             0x2F, 0x74, 0x61, 0x70, 0x3F, 0x75, 0x69, 0x64, 0x3D],
            27, 46, 57, 23) := by
  decide

/-- C1 (amended): whenever the secure-messaging codec's response-MAC check
(or any other step) fails, the wrap call fails with the session left
completely unchanged — in particular the `authenticated` flag is never
cleared, so the session can still be used for further wrapped commands. -/
theorem C1_mac_mismatch_session (E Dc : List Nat → List Nat → List Nat) (w : World)
    (sess : ssm_session_t) (cmd : Nat) (hdr data : List Nat) (cap : Nat) :
    (ssm_cmd_full E Dc w sess cmd hdr data cap).2.1.authenticated = sess.authenticated ∧
    ((ssm_cmd_full E Dc w sess cmd hdr data cap).1 = none →
      (ssm_cmd_full E Dc w sess cmd hdr data cap).2.1 = sess) := by
  simp only [ssm_cmd_full]
  repeat' split
  all_goals first
    | exact ⟨rfl, fun _ => rfl⟩
    | exact ⟨rfl, fun h => Option.noConfusion h⟩

/-- Witness for `C1_mac_mismatch_session` at the concrete MAC-mismatch run. -/
theorem C1_witness :
    (ssm_cmd_full Etriv Dtriv w_badmac sess0 0xF6 [2] [] 16).2.1 = sess0 :=
  (C1_mac_mismatch_session Etriv Dtriv w_badmac sess0 0xF6 [2] [] 16).2 (by decide)

/-- C2 (amended): a session produced by EV2-First starts with `CmdCtr = 0`,
and `ssm_cmd_full` advances `CmdCtr` by exactly 1 (mod 2^16) exactly when
the whole call succeeds, leaving it unchanged on every failure — successful
response-MAC verification alone is not sufficient, because the
decrypt/copy-out steps after it can still fail without advancing the
counter. -/
theorem C2_cmd_ctr (E Dc : List Nat → List Nat → List Nat) (w : World)
    (key : List Nat) (kn : Nat) (rndA : List Nat) (s : ssm_session_t) (wf : World)
    (w2 : World) (sess : ssm_session_t) (cmd : Nat) (hdr data : List Nat) (cap : Nat) :
    (authenticate_ev2_first E Dc w key kn rndA = (some s, wf) → s.cmd_ctr = 0) ∧
    ((ssm_cmd_full E Dc w2 sess cmd hdr data cap).1.isSome = true →
      (ssm_cmd_full E Dc w2 sess cmd hdr data cap).2.1.cmd_ctr =
        (sess.cmd_ctr + 1) % 65536) ∧
    ((ssm_cmd_full E Dc w2 sess cmd hdr data cap).1 = none →
      (ssm_cmd_full E Dc w2 sess cmd hdr data cap).2.1.cmd_ctr = sess.cmd_ctr) := by
  constructor
  · intro h
    simp only [authenticate_ev2_first] at h
    repeat' split at h
    all_goals
      injection h with h1 h2
      first
        | exact Option.noConfusion h1
        | (injection h1 with h1; rw [← h1])
  · simp only [ssm_cmd_full]
    repeat' split
    all_goals first
      | exact ⟨fun _ => rfl, fun h => Option.noConfusion h⟩
      | exact ⟨fun h => Bool.noConfusion h, fun _ => rfl⟩

/-- Witness for `C2_cmd_ctr`: the concrete handshake yields `CmdCtr = 0`,
a successful wrap advances it to 1, and a failed wrap leaves it at 0. -/
theorem C2_witness :
    sess_auth.cmd_ctr = 0 ∧
    (ssm_cmd_full Etriv Dtriv w_goodmac sess0 0xF6 [2] [] 16).2.1.cmd_ctr =
      (sess0.cmd_ctr + 1) % 65536 ∧
    (ssm_cmd_full Etriv Dtriv w_badmac sess0 0xF6 [2] [] 16).2.1.cmd_ctr =
      sess0.cmd_ctr :=
  ⟨(C2_cmd_ctr Etriv Dtriv w_auth0 (zeros 16) 0 (zeros 16) sess_auth w_auth_done
      w_goodmac sess0 0xF6 [2] [] 16).1 (by decide),
   (C2_cmd_ctr Etriv Dtriv w_auth0 (zeros 16) 0 (zeros 16) sess_auth w_auth_done
      w_goodmac sess0 0xF6 [2] [] 16).2.1 (by decide),
   (C2_cmd_ctr Etriv Dtriv w_auth0 (zeros 16) 0 (zeros 16) sess_auth w_auth_done
      w_badmac sess0 0xF6 [2] [] 16).2.2 (by decide)⟩

/-- C3: after a successful EV2-First handshake with long-term key `key`,
host nonce `rndA` and card nonce `RndB` (the CBC decryption of the card's
first 16-byte response under `key` with a zero IV), the stored session
keys are `KENC = CMAC(K, A5 5A 00 01 00 80 || MIX)` and
`KMAC = CMAC(K, 5A A5 00 01 00 80 || MIX)` with `MIX` the spec's 26-byte
mix of `rndA` and `RndB`. -/
theorem C3_session_keys (E Dc : List Nat → List Nat → List Nat) (w w1 : World)
    (key rndB_enc rndA : List Nat) (kn : Nat) (s : ssm_session_t) (wf : World)
    (h1 : transmit w [0x90, 0x71, 0x00, 0x00, 0x02, kn, 0x00, 0x00] =
      (some (rndB_enc, 0x91AF), w1))
    (hlen : rndB_enc.length = 16)
    (hauth : authenticate_ev2_first E Dc w key kn rndA = (some s, wf)) :
    s.kenc = aes_cmac E key
      (sv_prefix1 ++ ev2_mix_spec rndA (cbc_dec_blocks Dc key (zeros 16) rndB_enc)) ∧
    s.kmac = aes_cmac E key
      (sv_prefix2 ++ ev2_mix_spec rndA (cbc_dec_blocks Dc key (zeros 16) rndB_enc)) := by
  simp only [authenticate_ev2_first] at hauth
  rw [h1] at hauth
  simp only [aes_cbc_decrypt, hlen] at hauth
  norm_num at hauth
  repeat' split at hauth
  all_goals
    first
      | exact absurd (congrArg Prod.fst hauth) (fun hh => Option.noConfusion hh)
      | (injection hauth with ha hb
         injection ha with ha
         rw [← ha]
         constructor <;> simp [sv_prefix1, sv_prefix2, ev2_mix_spec, List.append_assoc])

/-- Witness for `C3_session_keys` at the all-zero concrete handshake. -/
theorem C3_witness :
    sess_auth.kenc = aes_cmac Etriv (zeros 16)
      (sv_prefix1 ++ ev2_mix_spec (zeros 16)
        (cbc_dec_blocks Dtriv (zeros 16) (zeros 16) (zeros 16))) ∧
    sess_auth.kmac = aes_cmac Etriv (zeros 16)
      (sv_prefix2 ++ ev2_mix_spec (zeros 16)
        (cbc_dec_blocks Dtriv (zeros 16) (zeros 16) (zeros 16))) :=
  C3_session_keys Etriv Dtriv w_auth0 w_auth_mid (zeros 16) (zeros 16) (zeros 16) 0
    sess_auth w_auth_done (by decide) (by decide) (by decide)

/-- C4 (amended): re-framing the Build payload in the GetFileSettings
response layout — a FileType byte in front and a 3-byte FileSize after
AR2 — parsing recovers exactly the settings Build emitted (FileOption,
AR1, AR2, SDMOptions and the three SDM access nibbles), provided
SDMMetaRead is a nibble above 4 (Build never emits the PICCDataOffset the
parser would otherwise expect) and SDMOptions has bits 0x10 and 0x20
clear (Build never emits the ENC fields or a counter limit). Parsing the
raw Build payload directly does not round-trip. -/
theorem C4_roundtrip_amended (cm a1 a2 opts meta file ctr u c mi mc ft size : Nat)
    (h10 : opts &&& 0x10 = 0) (h20 : opts &&& 0x20 = 0)
    (hm : meta < 16) (hm4 : 4 < meta) (hf : file < 16) (hcr : ctr < 16) :
    (parse_file_settings ([ft] ++
        (cfs_sdm_payload cm a1 a2 opts meta file ctr u c mi mc).take 3 ++
        write_u24_le size ++
        (cfs_sdm_payload cm a1 a2 opts meta file ctr u c mi mc).drop 3)).map
      (fun i => (i.file_option, i.ar1, i.ar2, i.sdm_options,
                 i.sdm_meta_read, i.sdm_file_read, i.sdm_ctr_ret)) =
      some ((cm &&& 0x03) ||| 0x40, a1, a2, opts, meta, file, ctr) := by
  obtain ⟨hA1, hA2, hA3, hA4⟩ := sdm_ar_nibbles meta hm file hf ctr hcr
  have hfo := fo_and40 (cm &&& 0x03) (Nat.lt_of_le_of_lt Nat.and_le_right (by decide))
  have hmle : ¬ (meta ≤ 0x04) := by omega
  simp only [cfs_sdm_payload, and15_self meta hm, and15_self file hf, and15_self ctr hcr,
    write_u24_le, List.cons_append, List.nil_append, List.take_succ_cons, List.take_zero,
    List.drop_succ_cons, List.drop_zero]
  simp only [parse_file_settings, List.getD_cons_zero, List.getD_cons_succ, List.length_cons]
  simp only [hA1, hA2, hA3, hA4]
  by_cases h80 : opts &&& 0x80 = 0 <;>
  by_cases h40 : opts &&& 0x40 = 0 <;>
  by_cases hmeta : meta = 0x0E <;>
  by_cases hfile : file = 0x0F <;>
    simp [consume, h80, h40, hmeta, hfile, h10, h20, hmle, hfo]

/-- Witness for `C4_roundtrip_amended` at the tool's own SDM setup values. -/
theorem C4_witness :
    (parse_file_settings ([0] ++
        (cfs_sdm_payload 0 0 0 0xC1 14 1 1 27 46 23 57).take 3 ++
        write_u24_le 256 ++
        (cfs_sdm_payload 0 0 0 0xC1 14 1 1 27 46 23 57).drop 3)).map
      (fun i => (i.file_option, i.ar1, i.ar2, i.sdm_options,
                 i.sdm_meta_read, i.sdm_file_read, i.sdm_ctr_ret)) =
      some ((0 &&& 0x03) ||| 0x40, 0, 0, 0xC1, 14, 1, 1) :=
  C4_roundtrip_amended 0 0 0 0xC1 14 1 1 27 46 23 57 0 256
    (by decide) (by decide) (by decide) (by decide) (by decide) (by decide)

/-- C5 (amended): the `0x6CXX` Le-retry lives only in the READ BINARY
helper: when the first transmit of `read_binary` returns `SW = 0x6CXX`,
it re-issues the same APDU with `Le := XX` and hands the second result to
the caller; the byte-level adapter `transmit` itself sends each APDU
exactly once and never retries. -/
theorem C5_le_retry_amended (w : World) (apdu : List Nat) (off le : Nat)
    (w1 : World) (b1 : List Nat) (sw1 : Nat)
    (h1 : transmit w [0x00, 0xB0, (off >>> 8) &&& 0xFF, off &&& 0xFF, le] =
      (some (b1, sw1), w1))
    (h6c : sw1 &&& 0xFF00 = 0x6C00) :
    (read_binary w off le =
      (match transmit w1 [0x00, 0xB0, (off >>> 8) &&& 0xFF, off &&& 0xFF, sw1 &&& 0xFF] with
       | (none, w2) => (none, none, w2)
       | (some (b2, sw2), w2) => ((if sw_ok sw2 then some b2 else none), some sw2, w2))) ∧
    (transmit w apdu).2.sent = w.sent ++ [apdu] := by
  constructor
  · simp only [read_binary]
    rw [h1]
    dsimp only
    rw [if_pos h6c]
  · simp only [transmit]
    repeat' split
    all_goals rfl

/-- Witness for `C5_le_retry_amended` on the scripted `0x6C10` retry. -/
theorem C5_witness :
    (read_binary w_leretry 0 0 =
      (match transmit
          { script := [some [0xAA, 0x90, 0x00]], sent := [[0x00, 0xB0, 0x00, 0x00, 0x00]] }
          [0x00, 0xB0, 0x00, 0x00, 0x10] with
       | (none, w2) => (none, none, w2)
       | (some (b2, sw2), w2) => ((if sw_ok sw2 then some b2 else none), some sw2, w2))) ∧
    (transmit w_leretry [0x00, 0xB0, 0x00, 0x00, 0x00]).2.sent =
      w_leretry.sent ++ [[0x00, 0xB0, 0x00, 0x00, 0x00]] :=
  C5_le_retry_amended w_leretry [0x00, 0xB0, 0x00, 0x00, 0x00] 0 0
    { script := [some [0xAA, 0x90, 0x00]], sent := [[0x00, 0xB0, 0x00, 0x00, 0x00]] }
    [] 0x6C10 (by decide) (by decide)

/-- C7: `change_key` builds exactly the 21-byte payload
`(newKey XOR oldKey) || keyVersion || CRC32(newKey)` — the CRC shipped as
4 little-endian bytes, computed with the reflected polynomial
`0xEDB88320`, initial value `0xFFFFFFFF` and no final inversion — and
sends it through secure messaging with `INS = 0xC4` and the single header
byte `targetKeyNo`. -/
theorem C7_change_key (E Dc : List Nat → List Nat → List Nat) (w : World)
    (sess : ssm_session_t) (kn : Nat) (old_key new_key : List Nat) (ver : Nat)
    (ho : old_key.length = 16) (hn : new_key.length = 16) :
    change_key E Dc w sess kn old_key new_key ver =
      ssm_cmd_full E Dc w sess 0xC4 [kn]
        (List.zipWith Nat.xor new_key old_key ++ [ver] ++
         [crc32_spec new_key &&& 0xFF, (crc32_spec new_key >>> 8) &&& 0xFF,
          (crc32_spec new_key >>> 16) &&& 0xFF, (crc32_spec new_key >>> 24) &&& 0xFF]) 16 ∧
    (List.zipWith Nat.xor new_key old_key ++ [ver] ++
     [crc32_spec new_key &&& 0xFF, (crc32_spec new_key >>> 8) &&& 0xFF,
      (crc32_spec new_key >>> 16) &&& 0xFF, (crc32_spec new_key >>> 24) &&& 0xFF]).length
      = 21 := by
  have ht : new_key.take 16 = new_key := by rw [← hn]; exact List.take_length _
  have ht2 : old_key.take 16 = old_key := by rw [← ho]; exact List.take_length _
  unfold change_key
  rw [ht, ht2, crc32_ieee_eq_spec]
  refine ⟨rfl, ?_⟩
  simp [ho, hn]

/-- Witness for `C7_change_key` with two all-zero keys. -/
theorem C7_witness :
    change_key Etriv Dtriv w_goodmac sess0 1 (zeros 16) (zeros 16) 1 =
      ssm_cmd_full Etriv Dtriv w_goodmac sess0 0xC4 [1]
        (List.zipWith Nat.xor (zeros 16) (zeros 16) ++ [1] ++
         [crc32_spec (zeros 16) &&& 0xFF, (crc32_spec (zeros 16) >>> 8) &&& 0xFF,
          (crc32_spec (zeros 16) >>> 16) &&& 0xFF,
          (crc32_spec (zeros 16) >>> 24) &&& 0xFF]) 16 ∧
    (List.zipWith Nat.xor (zeros 16) (zeros 16) ++ [1] ++
     [crc32_spec (zeros 16) &&& 0xFF, (crc32_spec (zeros 16) >>> 8) &&& 0xFF,
      (crc32_spec (zeros 16) >>> 16) &&& 0xFF,
      (crc32_spec (zeros 16) >>> 24) &&& 0xFF]).length = 21 :=
  C7_change_key Etriv Dtriv w_goodmac sess0 1 (zeros 16) (zeros 16) 1
    (by decide) (by decide)

/-- C8: the C `aes_cmac` implements RFC 4493 as the spec states it, for
every block cipher `E`, key and message: subkeys by the one-bit left
shift with `0x87` reduction, final block the last full block XOR K1 for a
positive whole number of blocks and the `0x80 00..`-padded remainder XOR
K2 otherwise, CBC-MAC over all blocks with a zero IV. -/
theorem C8_cmac_rfc4493 (E : List Nat → List Nat → List Nat) (key msg : List Nat) :
    aes_cmac E key msg = cmac_spec E key msg := by
  by_cases hc : msg.length ≠ 0 ∧ msg.length % 16 = 0
  · obtain ⟨h0, h16⟩ := hc
    obtain ⟨m, hm⟩ : ∃ m, msg.length / 16 = m + 1 := ⟨msg.length / 16 - 1, by omega⟩
    rw [aes_cmac_complete E key msg h0 h16]
    simp only [cmac_spec]
    rw [if_pos ⟨h0, h16⟩, if_pos ⟨h0, h16⟩]
    rw [chunks16_eq_map m msg (by omega)]
    rw [foldl_blocks, List.foldl_map, ← subkeys_eq_spec]
    simp only [hm, Nat.add_sub_cancel]
  · have hpl := pad_length_eq msg
    obtain ⟨m, hM⟩ : ∃ m, (pad_iso9797_m2 msg).length = 16 * (m + 1) :=
      ⟨(msg.length + (16 - msg.length % 16)) / 16 - 1, by omega⟩
    have hn : (if (msg.length + 15) / 16 = 0 then 1 else (msg.length + 15) / 16) = m + 1 := by
      by_cases h0 : msg.length = 0
      · rw [if_pos (by omega)]; omega
      · have hr : msg.length % 16 ≠ 0 := by tauto
        rw [if_neg (by omega)]; omega
    have h16m : 16 * m ≤ msg.length := by omega
    have hgm : ((pad_iso9797_m2 msg).drop (16 * m)).take 16 =
        msg.drop (16 * m) ++ 0x80 :: zeros (15 - (msg.drop (16 * m)).length) := by
      rw [pad_eq_append, List.drop_append_eq_append_drop,
        Nat.sub_eq_zero_of_le h16m, List.drop_zero]
      rw [List.take_of_length_le
        (by simp only [List.length_append, List.length_cons, List.length_drop, zeros,
              List.length_replicate]; omega)]
      simp only [List.length_drop]
      have hz2 : 15 - msg.length % 16 = 15 - (msg.length - 16 * m) := by omega
      rw [hz2]
    have hgi : ∀ i ∈ List.range m,
        (fun i => ((pad_iso9797_m2 msg).drop (16 * i)).take 16) i =
        (fun i => (msg.drop (16 * i)).take 16) i := by
      intro i hi
      rw [List.mem_range] at hi
      simp only
      rw [pad_eq_append, List.drop_append_eq_append_drop,
        Nat.sub_eq_zero_of_le (by omega), List.drop_zero,
        List.take_append_eq_append_take]
      have hz : 16 - (msg.drop (16 * i)).length = 0 := by
        simp only [List.length_drop]; omega
      rw [hz, List.take_zero, List.append_nil]
    simp only [aes_cmac, cmac_spec]
    rw [if_neg hc, if_neg hc, if_neg hc]
    rw [hn]
    simp only [Nat.add_sub_cancel]
    rw [chunks16_eq_map m _ hM]
    rw [foldl_blocks]
    rw [List.map_congr_left hgi]
    rw [List.foldl_map, ← subkeys_eq_spec, hgm]

/-- C9: unpadding the ISO 9797-1 M2 padding of any byte string of length
at most 256 returns exactly that byte string. -/
theorem C9_pad_unpad (D : List Nat) (h : D.length ≤ 256) :
    unpad_iso9797_m2 (pad_iso9797_m2 D) = D := by
  rw [pad_eq_append]
  unfold unpad_iso9797_m2
  rw [List.reverse_append, List.reverse_cons]
  rw [show (zeros (15 - D.length % 16)).reverse = zeros (15 - D.length % 16) from by
    simp [zeros]]
  rw [List.append_assoc]
  rw [List.dropWhile_append_of_pos (by intro a ha; simp only [zeros] at ha; simp_all)]
  simp only [List.singleton_append]
  rw [List.dropWhile_cons_of_neg (by decide)]
  simp

/-- Witness for `C9_pad_unpad` at `D = [1, 2, 3]`. -/
theorem C9_witness :
    ([1, 2, 3] : List Nat).length ≤ 256 ∧
    unpad_iso9797_m2 (pad_iso9797_m2 [1, 2, 3]) = [1, 2, 3] :=
  ⟨by decide, C9_pad_unpad [1, 2, 3] (by decide)⟩

/-- C10: whether a `ssm_cmd_full` call succeeds or fails, the session
fields `kenc`, `kmac`, `ti`, `key_no` (and `authenticated`) are left
unchanged: `cmd_ctr` is the only session field the function ever
modifies. -/
theorem C10_frame (E Dc : List Nat → List Nat → List Nat) (w : World)
    (sess : ssm_session_t) (cmd : Nat) (hdr data : List Nat) (cap : Nat) :
    (ssm_cmd_full E Dc w sess cmd hdr data cap).2.1.kenc = sess.kenc ∧
    (ssm_cmd_full E Dc w sess cmd hdr data cap).2.1.kmac = sess.kmac ∧
    (ssm_cmd_full E Dc w sess cmd hdr data cap).2.1.ti = sess.ti ∧
    (ssm_cmd_full E Dc w sess cmd hdr data cap).2.1.key_no = sess.key_no ∧
    (ssm_cmd_full E Dc w sess cmd hdr data cap).2.1.authenticated = sess.authenticated := by
  simp only [ssm_cmd_full]
  repeat' split
  all_goals exact ⟨rfl, rfl, rfl, rfl, rfl⟩

end Ntag424
